import Mathlib

/-!
Verification of the voice-chat session orchestrator in `main.py`
(`VoiceChatManager` and its helpers).

The Python manager keeps two dictionaries keyed by `str(chat_id)`:
`active_calls` (chat key -> call-info dict) and `playlist_queues`
(chat key -> list of queued media items), serialized by one asyncio lock.
We embed the dictionaries as association lists with dict semantics
(lookup finds the first binding, insert replaces the binding in place or
appends, erase deletes the binding), and every public operation of the
manager as a pure state-transformer `Env -> ManagerState -> args ->
Bool x ManagerState`, where `Env` supplies the outcomes of every external
effect (filesystem checks, the ffmpeg converter, and each PyTgCalls
transport call, any of which may raise).
-/

namespace VC

/-- Dict lookup on an association list: first binding for the key. -/
def lookupA {α : Type} (k : String) : List (String × α) → Option α
  | [] => none
  | (k', v) :: rest => if k' = k then some v else lookupA k rest

/-- Dict assignment: replace the binding in place, or append a new one. -/
def insertA {α : Type} (k : String) (v : α) : List (String × α) → List (String × α)
  | [] => [(k, v)]
  | (k', v') :: rest => if k' = k then (k, v) :: rest else (k', v') :: insertA k v rest

/-- Dict deletion (`del d[k]`): remove the bindings for the key. -/
def eraseA {α : Type} (k : String) : List (String × α) → List (String × α)
  | [] => []
  | (k', v') :: rest => if k' = k then eraseA k rest else (k', v') :: eraseA k rest

/-- The dataclass `VoiceSettings` of `main.py` (lines 207-219). -/
structure VoiceSettings where
  volume : Int := 100
  effects : String := "none"
  equalizer : String := "normal"
  is_video : Bool := false
  audio_quality : String := "low"
  video_quality : String := "medium"
  audio_bitrate : Int := 48000
  video_bitrate : Int := 512
  framerate : Int := 30
  width : Int := 640
  height : Int := 480
  deriving DecidableEq

/-- The constant `MAX_VOLUME` (line 188): env default "200", clamped to [1,300]. -/
def MAX_VOLUME : Int := 200

/-- The validation `VoiceSettings.__post_init__` (lines 221-234). -/
def VoiceSettings.postInit (s : VoiceSettings) : VoiceSettings :=
  { s with
    volume := max 1 (min MAX_VOLUME s.volume),
    effects :=
      if ["none", "robot", "echo", "chipmunk", "deep", "underwater"].contains s.effects
      then s.effects else "none",
    equalizer :=
      if ["normal", "rock", "vocal", "electronic", "classical", "loud"].contains s.equalizer
      then s.equalizer else "normal",
    audio_quality :=
      if ["low", "medium", "high"].contains s.audio_quality then s.audio_quality else "medium",
    video_quality :=
      if ["low", "medium", "high"].contains s.video_quality then s.video_quality else "medium",
    audio_bitrate := max 16000 (min 320000 s.audio_bitrate),
    video_bitrate := max 128 (min 8192 s.video_bitrate),
    framerate := max 15 (min 60 s.framerate) }

/-- The stream object handed to PyTgCalls (`AudioPiped` / `AudioVideoPiped`):
we record the file path it pipes and whether it carries video. -/
structure StreamDesc where
  path : String
  video : Bool
  deriving DecidableEq

/-- One entry of `self.active_calls` (dict literal at lines 783-795, extended
by `play_media`'s `update` at lines 1094-1105 and mutated by
stop/pause/resume/set_volume).  The opaque `client` object reference is not
modelled; the `pytgcalls` object reference is modelled by its truthiness
`hasPytgcalls` (the only way the code consumes it outside `Env` calls). -/
structure CallInfo where
  phone : String
  joined_at : Nat
  playing : Bool
  hasPytgcalls : Bool
  entity_id : Int
  user_id : Int
  user_name : String
  current_stream : StreamDesc
  stream_type : String
  chat_title : String
  file : Option String := none
  volume : Option Int := none
  effects : Option String := none
  is_video : Option Bool := none
  started_at : Option Nat := none
  audio_quality : Option String := none
  video_quality : Option String := none
  deriving DecidableEq

/-- One entry of a playlist queue (`add_to_queue`, lines 1285-1290; the
settings are stored as `asdict(settings)` and rebuilt on dequeue). -/
structure QueueItem where
  file : String
  settings : VoiceSettings
  is_video : Bool
  added_at : Nat
  deriving DecidableEq

/-- The mutable state of one `VoiceChatManager` (lines 309-311). -/
structure ManagerState where
  active_calls : List (String × CallInfo)
  playlist_queues : List (String × List QueueItem)
  deriving DecidableEq

/-- A chat identifier as the Python code receives it: `Union[int, str]`. -/
inductive ChatRef where
  | intId (n : Int)
  | strId (s : String)
  deriving DecidableEq

/-- Python `str(chat_id)`: decimal form for ints, identity on strings. -/
def strOfChat : ChatRef → String
  | .intId n => toString n
  | .strId s => s

/-- Python `chat_id.lstrip('+')`: drop every leading plus sign. -/
def lstripPlus (s : String) : String :=
  String.mk (s.data.dropWhile fun c => c == '+')

/-- The normalization `join_voice_chat` applies before keying
(lines 538-539): strings lose their leading plus signs. -/
def normalizeJoin : ChatRef → ChatRef
  | .intId n => .intId n
  | .strId s => .strId (lstripPlus s)

/-- The registry key `join_voice_chat` uses (line 542), after
normalization. -/
def joinKey (c : ChatRef) : String :=
  strOfChat (normalizeJoin c)

/-- Result of one ffmpeg invocation as `convert_audio_for_playback`
observes it: exit code, and existence/size of the output file. -/
structure ConvResult where
  returncode : Int
  outExists : Bool
  outSize : Nat
  deriving DecidableEq

/-- The slice of a resolved Telethon entity the manager reads. -/
structure Entity where
  id : Int
  broadcast : Bool
  title : Option String := none
  deriving DecidableEq

/-- Outcome of one `pytgcalls.join_group_call` attempt inside the retry
loop of `join_voice_chat` (lines 754-943): success, one of the caught
exception classes, a timeout, the "already joined" generic exception, or
any other exception. -/
inductive JoinOutcome where
  | success
  | noActiveGroupCall
  | groupCallNotFound
  | timeoutErr
  | alreadyJoined
  | otherError
  deriving DecidableEq

/-- Environment: the outcome of every external effect the manager code
performs.  Transport calls (`change_stream`, `pause_stream`,
`resume_stream`, `change_volume_call`) either return or raise; the
corresponding field tells which. -/
structure Env where
  /-- `Path(p).exists()` -/
  fileExists : String → Bool
  /-- ffmpeg run inside `convert_audio_for_playback`, keyed by input path -/
  conv : String → ConvResult
  /-- `tempfile.gettempdir()` -/
  tempDir : String
  /-- `time.time()` -/
  now : Nat
  /-- `client.get_me().id` -/
  userId : Int
  /-- formatted `get_me` name -/
  userName : String
  /-- `initialize_pytgcalls` returns without raising (lines 313-352) -/
  initOk : Bool
  /-- net result of the entity-resolution cascade (lines 550-687): every
  branch either produces an entity or makes the function return False
  without touching the registry -/
  resolve : ChatRef → Option Entity
  /-- silence.mp3 exists, possibly after `create_silence_file`
  (lines 742-748) -/
  silenceOk : Bool
  /-- outcome of join attempt number i (0-based) -/
  attemptOutcome : Nat → JoinOutcome
  /-- entity grants `manage_call` admin rights or creator (lines 813-819) -/
  canCreate : Bool
  /-- the create-voice-chat-then-join last resort succeeds (lines 822-855) -/
  createJoinOk : Bool
  /-- `pytgcalls.change_stream(chat_id_int, stream)` returns, by entity id
  and piped path -/
  changeStreamOk : Int → String → Bool
  /-- `pytgcalls.pause_stream` returns -/
  pauseOk : Bool
  /-- `pytgcalls.resume_stream` returns -/
  resumeOk : Bool
  /-- `pytgcalls.change_volume_call` returns, by the clamped volume sent -/
  changeVolumeOk : Int → Bool

/-- Python `str.rfind('.')` on a character list: index of the last dot. -/
def rfindDot : List Char → Option Nat
  | [] => none
  | c :: rest =>
    match rfindDot rest with
    | some i => some (i + 1)
    | none => if c == '.' then some 0 else none

/-- Final path component (`Path(p).name`). -/
def basenameOf (p : String) : String :=
  String.mk ((p.data.reverse.takeWhile fun c => !(c == '/')).reverse)

/-- Python `int(text)` succeeds on this string: an optionally signed,
non-empty run of decimal digits.  (Surrounding whitespace and digit
underscores, which Python also tolerates, are not modelled.) -/
def strIsInt (s : String) : Bool :=
  match s.data with
  | [] => false
  | c :: rest =>
    if c == '-' || c == '+' then !rest.isEmpty && rest.all (fun d => d.isDigit)
    else (c :: rest).all (fun d => d.isDigit)

/-- Python `int(chat_id)` returns without raising ValueError: always for
an int, and for a string only when it is a signed decimal numeral.  Six
manager methods evaluate `int(chat_id)` eagerly as the default argument
of `call_info.get("entity_id", int(chat_id))` (lines 962, 998, 1135,
1193, 1223, 1253), so for a session registered under a non-numeric
string id (a username, invite hash, or link) the call raises there and
the method's enclosing handler returns False without mutating anything. -/
def intParses : ChatRef → Bool
  | .intId _ => true
  | .strId s => strIsInt s

/-- Python `Path(p).stem`: the final component without its last suffix; a dot at
position 0 or at the very end does not begin a suffix. -/
def pathStem (p : String) : String :=
  let name := basenameOf p
  let cs := name.data
  match rfindDot cs with
  | some i => if 0 < i ∧ i + 1 < cs.length then String.mk (cs.take i) else name
  | none => name

/-- Source `convert_audio_for_playback` (lines 1050-1076): run ffmpeg to a temp
output; on non-zero exit, or missing or sub-1000-byte output, fall back to
the original input path. -/
def convert_audio_for_playback (env : Env) (input_path : String) : String :=
  let out_path := env.tempDir ++ "/" ++ pathStem input_path ++ "_vcbot_36k64k.mp3"
  let r := env.conv input_path
  if r.returncode ≠ 0 then input_path
  else if !r.outExists || r.outSize < 1000 then input_path
  else out_path

/-- The converter failed for this input (non-zero exit, or output missing
or smaller than 1000 bytes), so the fallback branch fires. -/
def convFailed (env : Env) (p : String) : Bool :=
  ((env.conv p).returncode != 0) || !(env.conv p).outExists ||
    decide ((env.conv p).outSize < 1000)

/-- Source `_cleanup_call` (lines 379-388): drop the chat's entries from both
dictionaries. -/
def cleanup_call (s : ManagerState) (chat_id_str : String) : ManagerState :=
  { active_calls := eraseA chat_id_str s.active_calls,
    playlist_queues := eraseA chat_id_str s.playlist_queues }

/-- The `on_kicked` handler (lines 330-334): log, then `_cleanup_call(str(chat_id))`.
It takes no transport environment because it performs no transport call. -/
def on_kicked (s : ManagerState) (chat_id : Int) : ManagerState :=
  cleanup_call s (toString chat_id)

/-- Source `play_media` (lines 981-1121), audio and video branches.  The stream
piped is the converted path for audio (with fallback, see
`convert_audio_for_playback`) and the raw path for video; `change_stream`
raising leaves the state untouched and returns False, otherwise the
call-info dict is updated (lines 1094-1105).  Line 998's eager
`int(chat_id)` default raises for non-numeric string ids, caught by the
outer handler: False, no mutation. -/
def play_media (env : Env) (s : ManagerState) (chat : ChatRef) (file_path : String)
    (settings : VoiceSettings) (is_video : Bool) : Bool × ManagerState :=
  let key := strOfChat chat
  if !(env.fileExists file_path) then (false, s)
  else
    match lookupA key s.active_calls with
    | none => (false, s)
    | some ci =>
      if !(intParses chat) then (false, s)
      else if !ci.hasPytgcalls then (false, s)
      else
        let streamPath := if is_video then file_path else convert_audio_for_playback env file_path
        let ci' : CallInfo :=
          { ci with
            playing := true,
            file := some file_path,
            volume := some settings.volume,
            effects := some settings.effects,
            is_video := some is_video,
            started_at := some env.now,
            current_stream := { path := streamPath, video := is_video },
            stream_type := if is_video then "video_with_audio" else "audio",
            audio_quality := some settings.audio_quality,
            video_quality := some settings.video_quality }
        if env.changeStreamOk ci.entity_id streamPath then
          (true, { s with active_calls := insertA key ci' s.active_calls })
        else (false, s)

/-- Source `stop_media` (lines 1123-1179): switch the transport to silence, mark
not playing, pop the `file` key, clear the queue.  Line 1135's eager
`int(chat_id)` default raises for non-numeric string ids: False, no
mutation. -/
def stop_media (env : Env) (s : ManagerState) (chat : ChatRef) : Bool × ManagerState :=
  let key := strOfChat chat
  match lookupA key s.active_calls with
  | none => (false, s)
  | some ci =>
    if !(intParses chat) then (false, s)
    else if ci.hasPytgcalls then
      if env.changeStreamOk ci.entity_id "silence.mp3" then
        let q' :=
          match lookupA key s.playlist_queues with
          | some _ => insertA key ([] : List QueueItem) s.playlist_queues
          | none => s.playlist_queues
        let ci' : CallInfo :=
          { ci with
            playing := false,
            current_stream := { path := "silence.mp3", video := false },
            stream_type := "audio",
            file := none }
        (true,
          { active_calls := insertA key ci' s.active_calls,
            playlist_queues := q' })
      else (false, s)
    else (false, s)

/-- Source `pause_media` (lines 1181-1209).  With a falsy pytgcalls reference the
Python function falls off the `if` and returns None, which callers treat
as false.  Line 1193's eager `int(chat_id)` default raises for
non-numeric string ids: False, no mutation. -/
def pause_media (env : Env) (s : ManagerState) (chat : ChatRef) : Bool × ManagerState :=
  let key := strOfChat chat
  match lookupA key s.active_calls with
  | none => (false, s)
  | some ci =>
    if !(intParses chat) then (false, s)
    else if ci.hasPytgcalls then
      if env.pauseOk then
        (true, { s with active_calls := insertA key { ci with playing := false } s.active_calls })
      else (false, s)
    else (false, s)

/-- Source `resume_media` (lines 1211-1239): same shape as pause, setting
`playing` to true.  No check of any prior pause or of current media.
Line 1223's eager `int(chat_id)` default raises for non-numeric string
ids: False, no mutation. -/
def resume_media (env : Env) (s : ManagerState) (chat : ChatRef) : Bool × ManagerState :=
  let key := strOfChat chat
  match lookupA key s.active_calls with
  | none => (false, s)
  | some ci =>
    if !(intParses chat) then (false, s)
    else if ci.hasPytgcalls then
      if env.resumeOk then
        (true, { s with active_calls := insertA key { ci with playing := true } s.active_calls })
      else (false, s)
    else (false, s)

/-- Source `set_volume` (lines 1241-1271): clamp to [0,200] for the transport
call, store the caller's unclamped value on success.  Only session
existence is checked, never the playing phase.  Line 1253's eager
`int(chat_id)` default raises for non-numeric string ids: False, no
mutation. -/
def set_volume (env : Env) (s : ManagerState) (chat : ChatRef) (volume : Int) :
    Bool × ManagerState :=
  let key := strOfChat chat
  match lookupA key s.active_calls with
  | none => (false, s)
  | some ci =>
    if !(intParses chat) then (false, s)
    else if ci.hasPytgcalls then
      if env.changeVolumeOk (min 200 (max 0 volume)) then
        (true, { s with active_calls := insertA key { ci with volume := some volume } s.active_calls })
      else (false, s)
    else (false, s)

/-- Source `add_to_queue` (lines 1273-1300): after a file-existence check, ensure
the chat has a queue and append; no session-registry check at all. -/
def add_to_queue (env : Env) (s : ManagerState) (chat : ChatRef) (file_path : String)
    (settings : VoiceSettings) (is_video : Bool) : Bool × ManagerState :=
  let key := strOfChat chat
  if !(env.fileExists file_path) then (false, s)
  else
    let q := (lookupA key s.playlist_queues).getD []
    let item : QueueItem :=
      { file := file_path, settings := settings, is_video := is_video, added_at := env.now }
    (true, { s with playlist_queues := insertA key (q ++ [item]) s.playlist_queues })

/-- The call-info dict recorded on a successful join (lines 783-795). -/
def mkCallInfo (env : Env) (e : Entity) (phone : String) : CallInfo :=
  { phone := phone,
    joined_at := env.now,
    playing := false,
    hasPytgcalls := true,
    entity_id := e.id,
    user_id := env.userId,
    user_name := env.userName,
    current_stream := { path := "silence.mp3", video := false },
    stream_type := "audio",
    chat_title := e.title.getD "Unknown Chat" }

/-- Registration performed at every successful-join site: record the call
and reset the chat's playlist queue to empty (lines 783-798, 840-853,
908-921). -/
def registerCall (env : Env) (s : ManagerState) (key : String) (e : Entity)
    (phone : String) : ManagerState :=
  { active_calls := insertA key (mkCallInfo env e phone) s.active_calls,
    playlist_queues := insertA key [] s.playlist_queues }

/-- The `for attempt in range(max_retries)` loop of `join_voice_chat`
(lines 750-943), by remaining attempts (called with 3).  On the caught
exception classes the loop sleeps and retries while attempts remain; on
the last attempt `NoActiveGroupCall` may fall back to creating the voice
chat and joining once more (lines 812-859), and the generic
"already joined" exception registers the call as a success. -/
def joinLoop (env : Env) (s : ManagerState) (key : String) (e : Entity) (phone : String) :
    Nat → Bool × ManagerState
  | 0 => (false, s)
  | remaining + 1 =>
    match env.attemptOutcome (3 - (remaining + 1)) with
    | .success => (true, registerCall env s key e phone)
    | .alreadyJoined => (true, registerCall env s key e phone)
    | .noActiveGroupCall =>
      if remaining > 0 then joinLoop env s key e phone remaining
      else if env.canCreate && env.createJoinOk then (true, registerCall env s key e phone)
      else (false, s)
    | .groupCallNotFound =>
      if remaining > 0 then joinLoop env s key e phone remaining else (false, s)
    | .timeoutErr =>
      if remaining > 0 then joinLoop env s key e phone remaining else (false, s)
    | .otherError =>
      if remaining > 0 then joinLoop env s key e phone remaining else (false, s)

/-- Source `join_voice_chat` (lines 533-948): normalize the id, return True at
once if the chat is already registered, then initialize PyTgCalls, resolve
the entity, reject broadcast channels, require silence.mp3, and run the
join-attempt loop.  Every failing branch returns False having never
touched the registry. -/
def join_voice_chat (env : Env) (s : ManagerState) (chat_id : ChatRef) (phone : String) :
    Bool × ManagerState :=
  let chat := normalizeJoin chat_id
  let key := strOfChat chat
  if (lookupA key s.active_calls).isSome then (true, s)
  else if !env.initOk then (false, s)
  else
    match env.resolve chat with
    | none => (false, s)
    | some e =>
      if e.broadcast then (false, s)
      else if !env.silenceOk then (false, s)
      else joinLoop env s key e phone 3

/-- Source `leave_voice_chat` (lines 950-979): missing session returns False
untouched; otherwise line 962's eager `int(chat_id)` default raises for
non-numeric string ids (caught at line 977: False, NO cleanup), and only
then is the transport leave attempted best-effort (its exceptions are
swallowed) with local cleanup always running, returning True. -/
def leave_voice_chat (env : Env) (s : ManagerState) (chat : ChatRef) : Bool × ManagerState :=
  let key := strOfChat chat
  match lookupA key s.active_calls with
  | none => (false, s)
  | some _ =>
    if !(intParses chat) then (false, s)
    else (true, cleanup_call s key)

/-- Source `_handle_stream_end` (lines 354-377): with a non-empty queue, pop the
front item and play it with its stored settings (rebuilt through the
`VoiceSettings` constructor, hence re-validated); otherwise mark the
session not playing. -/
def handle_stream_end (env : Env) (s : ManagerState) (chat_id : Int) : ManagerState :=
  let key := toString chat_id
  match lookupA key s.playlist_queues with
  | some (item :: rest) =>
    let s1 := { s with playlist_queues := insertA key rest s.playlist_queues }
    (play_media env s1 (.intId chat_id) item.file item.settings.postInit item.is_video).2
  | _ =>
    match lookupA key s.active_calls with
    | some ci =>
      { s with active_calls := insertA key { ci with playing := false } s.active_calls }
    | none => s

/-- Observation of what one `_handle_stream_end` call dequeues and plays:
the front item's file and the settings object rebuilt for it, when the
queue is non-empty. -/
def streamEndPlayed (s : ManagerState) (chat_id : Int) : Option (String × VoiceSettings) :=
  match lookupA (toString chat_id) s.playlist_queues with
  | some (item :: _) => some (item.file, item.settings.postInit)
  | _ => none

/-- Iterate `k` stream-end events for one chat, collecting the sequence of
(file, settings) pairs handed to `play_media`. -/
def streamEndTrace (env : Env) (s : ManagerState) (chat_id : Int) :
    Nat → ManagerState × List (String × VoiceSettings)
  | 0 => (s, [])
  | k + 1 =>
    let played := streamEndPlayed s chat_id
    let s' := handle_stream_end env s chat_id
    let r := streamEndTrace env s' chat_id k
    (r.1, played.toList ++ r.2)

/-! ### Concrete fixtures used by witnesses and counterexamples -/

/-- An environment in which every external effect succeeds. -/
def envA : Env :=
  { fileExists := fun _ => true,
    conv := fun _ => { returncode := 0, outExists := true, outSize := 5000 },
    tempDir := "/tmp",
    now := 1000,
    userId := 42,
    userName := "Test User",
    initOk := true,
    resolve := fun c =>
      some { id := (match c with | .intId n => n | .strId _ => 777),
             broadcast := false, title := some "Chat" },
    silenceOk := true,
    attemptOutcome := fun _ => .success,
    canCreate := false,
    createJoinOk := false,
    changeStreamOk := fun _ _ => true,
    pauseOk := true,
    resumeOk := true,
    changeVolumeOk := fun _ => true }

/-- Variant of `envA` with a converter that always fails (non-zero exit, no output). -/
def envConvFail : Env :=
  { envA with conv := fun _ => { returncode := 1, outExists := false, outSize := 0 } }

/-- Variant of `envA` with a PyTgCalls initialization failure. -/
def envInitFail : Env := { envA with initOk := false }

/-- A fresh manager: no calls, no queues. -/
def stEmpty : ManagerState := { active_calls := [], playlist_queues := [] }

/-- Default `VoiceSettings()`. -/
def vsDefault : VoiceSettings := {}

/-- State after one successful `join_voice_chat` for chat 1. -/
def sJoined1 : ManagerState := (join_voice_chat envA stEmpty (.intId 1) "+100001").2

/-- State after one successful `join_voice_chat` for chat 2 with one queued
item, as it stands when a kicked event for chat 2 arrives. -/
def sKicked2 : ManagerState :=
  (add_to_queue envA (join_voice_chat envA stEmpty (.intId 2) "+100002").2
    (.intId 2) "next.mp3" vsDefault false).2

/-! ### Association-list (dict) lemmas -/

theorem lookupA_insertA_self {α : Type} (k : String) (v : α) (l : List (String × α)) :
    lookupA k (insertA k v l) = some v := by
  induction l with
  | nil => simp [lookupA, insertA]
  | cons p rest ih =>
    by_cases h : p.1 = k
    · simp [lookupA, insertA, h]
    · simp [lookupA, insertA, h, ih]

theorem lookupA_insertA_ne {α : Type} (k k' : String) (v : α) (l : List (String × α))
    (h : k' ≠ k) : lookupA k (insertA k' v l) = lookupA k l := by
  induction l with
  | nil => simp [lookupA, insertA, h]
  | cons p rest ih =>
    by_cases hp : p.1 = k'
    · simp [lookupA, insertA, hp, h]
    · by_cases hk : p.1 = k
      · simp [lookupA, insertA, hp, hk, Ne.symm h]
      · simp [lookupA, insertA, hp, hk, ih]

theorem lookupA_eraseA_self {α : Type} (k : String) (l : List (String × α)) :
    lookupA k (eraseA k l) = none := by
  induction l with
  | nil => simp [lookupA, eraseA]
  | cons p rest ih =>
    by_cases h : p.1 = k
    · simp [eraseA, h, ih]
    · simp [lookupA, eraseA, h, ih]

theorem lookupA_eraseA_ne {α : Type} (k k' : String) (l : List (String × α))
    (h : k' ≠ k) : lookupA k (eraseA k' l) = lookupA k l := by
  induction l with
  | nil => simp [lookupA, eraseA]
  | cons p rest ih =>
    by_cases hp : p.1 = k'
    · have : p.1 ≠ k := by rw [hp]; exact h
      simp [lookupA, eraseA, hp, this, ih, h]
    · by_cases hk : p.1 = k
      · simp [lookupA, eraseA, hp, hk, Ne.symm h]
      · simp [lookupA, eraseA, hp, hk, ih]

/-! ### Claim theorems -/

/-- C9: leave on a chat with no registered session returns false and
mutates nothing: the result state is the input state, so the session
registry, the playlist queues, and every other session are untouched. -/
theorem c9_leave_no_session_noop (env : Env) (s : ManagerState) (chat : ChatRef)
    (h : lookupA (strOfChat chat) s.active_calls = none) :
    leave_voice_chat env s chat = (false, s) := by
  simp [leave_voice_chat, h]

/-- C9 witness: leaving chat 99 on a fresh manager. -/
theorem c9_witness :
    lookupA (strOfChat (.intId 99)) stEmpty.active_calls = none ∧
    leave_voice_chat envA stEmpty (.intId 99) = (false, stEmpty) :=
  ⟨by decide, c9_leave_no_session_noop envA stEmpty (.intId 99) (by decide)⟩

/-- C6: a second join on a chat that already has a registered session is
idempotent: it returns True at once with the state unchanged, so no second
transport handle is created and the registry entry is untouched
(lines 541-545). -/
theorem c6_join_idempotent (env : Env) (s : ManagerState) (chat : ChatRef) (phone : String)
    (h : (lookupA (joinKey chat) s.active_calls).isSome = true) :
    join_voice_chat env s chat phone = (true, s) := by
  have h' : (lookupA (strOfChat (normalizeJoin chat)) s.active_calls).isSome = true := h
  simp [join_voice_chat, h']

/-- C6 witness: joining chat 1 again after a successful join. -/
theorem c6_witness :
    (lookupA (joinKey (.intId 1)) sJoined1.active_calls).isSome = true ∧
    join_voice_chat envA sJoined1 (.intId 1) "+100001" = (true, sJoined1) :=
  ⟨by decide, c6_join_idempotent envA sJoined1 (.intId 1) "+100001" (by decide)⟩

/-- C1 counterexample: the kicked handler performs no rejoin at all.  On a
reachable state with a registered session and a queued item for chat 2,
processing `kicked(chat=2)` removes the session immediately — and the
handler is definitionally plain local cleanup (a pure function of the
registry state that makes no transport call), so no backed-off rejoin
attempt, counter increment, or counter reset ever happens. -/
theorem c1_counterexample :
    (lookupA "2" sKicked2.active_calls).isSome = true ∧
    (on_kicked sKicked2 2).active_calls = [] ∧
    (on_kicked sKicked2 2).playlist_queues = [] ∧
    on_kicked = fun s c => cleanup_call s (toString c) :=
  ⟨by decide, by decide, by decide, rfl⟩

/-- C1 amended: on a kicked event the session is dropped immediately, with
zero rejoin attempts: the handler equals `_cleanup_call(str(chat_id))`,
which removes the chat's registry entry and queue on the spot.  (The only
retry loop in the code lives inside a single `join_voice_chat` call: up to
3 attempts with a fixed 3-second delay, not triggered by kicks.) -/
theorem c1_kicked_drops_session_immediately (s : ManagerState) (chatId : Int) :
    on_kicked s chatId = cleanup_call s (toString chatId) ∧
    lookupA (toString chatId) (on_kicked s chatId).active_calls = none ∧
    lookupA (toString chatId) (on_kicked s chatId).playlist_queues = none := by
  refine ⟨rfl, ?_, ?_⟩ <;>
    simp [on_kicked, cleanup_call, lookupA_eraseA_self]

/-- C2 counterexample: `add_to_queue` never consults the session registry.
On a fresh manager with no session for chat 5 (hence no phase at all, let
alone Playing or Paused), enqueueing an existing file returns True and
leaves a non-empty queue for chat 5 while `active_calls` stays empty. -/
theorem c2_counterexample :
    (add_to_queue envA stEmpty (.intId 5) "a.mp3" vsDefault false).1 = true ∧
    lookupA "5" (add_to_queue envA stEmpty (.intId 5) "a.mp3" vsDefault false).2.playlist_queues =
      some [{ file := "a.mp3", settings := vsDefault, is_video := false, added_at := 1000 }] ∧
    (add_to_queue envA stEmpty (.intId 5) "a.mp3" vsDefault false).2.active_calls = [] := by
  refine ⟨by decide, by decide, by decide⟩

/-- C2 amended: enqueue appends to the chat's queue whenever the file
exists, regardless of whether any session is registered or what its phase
is, so the queue can be non-empty in any phase (or with no session).  The
clearing half of the invariant holds with a caveat: cleanup (hence the
kicked handler) removes the chat's queue entirely; a leave on a
registered session clears it via cleanup only when the chat id survives
the eagerly evaluated `int(chat_id)` (ints and numeric strings) —
otherwise leave returns False with the queue intact; and a successful
stop empties the queue. -/
theorem c2_queue_not_phase_gated (env : Env) (s : ManagerState) (chat : ChatRef)
    (f : String) (vs : VoiceSettings) (b : Bool)
    (hf : env.fileExists f = true) :
    (add_to_queue env s chat f vs b).1 = true ∧
    lookupA (strOfChat chat) (add_to_queue env s chat f vs b).2.playlist_queues =
      some ((lookupA (strOfChat chat) s.playlist_queues).getD [] ++
        [{ file := f, settings := vs, is_video := b, added_at := env.now }]) ∧
    (add_to_queue env s chat f vs b).2.active_calls = s.active_calls ∧
    (∀ k, lookupA k (cleanup_call s k).playlist_queues = none) ∧
    (∀ ci, lookupA (strOfChat chat) s.active_calls = some ci →
      intParses chat = true →
      leave_voice_chat env s chat = (true, cleanup_call s (strOfChat chat))) ∧
    (∀ ci, lookupA (strOfChat chat) s.active_calls = some ci →
      intParses chat = false →
      leave_voice_chat env s chat = (false, s)) ∧
    (∀ ci, lookupA (strOfChat chat) s.active_calls = some ci →
      intParses chat = true →
      ci.hasPytgcalls = true →
      env.changeStreamOk ci.entity_id "silence.mp3" = true →
      (stop_media env s chat).1 = true ∧
      (lookupA (strOfChat chat) (stop_media env s chat).2.playlist_queues).getD [] = []) := by
  refine ⟨?_, ?_, ?_, ?_, ?_, ?_, ?_⟩
  · simp [add_to_queue, hf]
  · simp [add_to_queue, hf, lookupA_insertA_self]
  · simp [add_to_queue, hf]
  · intro k; simp [cleanup_call, lookupA_eraseA_self]
  · intro ci hci hip; simp [leave_voice_chat, hci, hip]
  · intro ci hci hip; simp [leave_voice_chat, hci, hip]
  · intro ci hci hip hpy hcs
    constructor
    · simp [stop_media, hci, hip, hpy, hcs]
    · cases hq : lookupA (strOfChat chat) s.playlist_queues with
      | none => simp [stop_media, hci, hip, hpy, hcs, hq]
      | some q => simp [stop_media, hci, hip, hpy, hcs, hq, lookupA_insertA_self]

/-- C2 witness: enqueue on a fresh manager for chat 7. -/
theorem c2_witness :
    envA.fileExists "x.mp3" = true ∧
    (add_to_queue envA stEmpty (.intId 7) "x.mp3" vsDefault false).1 = true :=
  ⟨rfl, (c2_queue_not_phase_gated envA stEmpty (.intId 7) "x.mp3" vsDefault false rfl).1⟩

/-- C3 counterexample: `set_volume` only checks that a session exists,
never its phase.  On the state right after a successful join — nothing
playing, no current media path — `set_volume(1, 50)` returns True and
mutates the session (it records the volume), contradicting "returns false
and leaves all session state unchanged". -/
theorem c3_counterexample :
    (lookupA "1" sJoined1.active_calls).map (fun ci => ci.playing) = some false ∧
    (lookupA "1" sJoined1.active_calls).map (fun ci => ci.file) = some none ∧
    (set_volume envA sJoined1 (.intId 1) 50).1 = true ∧
    (set_volume envA sJoined1 (.intId 1) 50).2 ≠ sJoined1 ∧
    (lookupA "1" (set_volume envA sJoined1 (.intId 1) 50).2.active_calls).map
      (fun ci => ci.volume) = some (some 50) := by
  refine ⟨by decide, by decide, by decide, by decide, by decide⟩

/-- C3 amended: `set_volume` never checks the playing phase.  It returns
false and leaves the state unchanged when no session is registered for
the chat, when the chat id is a string that is not a decimal numeral (the
eagerly evaluated `int(chat_id)` default raises), or when the transport
volume call raises; with a registered session addressed by an int or
numeric string — whatever its phase and whether or not any media path is
set — it sends the clamped volume to the transport and on success records
the requested volume and returns true. -/
theorem c3_set_volume_checks_only_registration (env : Env) (s : ManagerState)
    (chat : ChatRef) (v : Int) :
    (lookupA (strOfChat chat) s.active_calls = none → set_volume env s chat v = (false, s)) ∧
    (intParses chat = false → set_volume env s chat v = (false, s)) ∧
    (∀ ci, lookupA (strOfChat chat) s.active_calls = some ci →
      intParses chat = true →
      ci.hasPytgcalls = true →
      env.changeVolumeOk (min 200 (max 0 v)) = true →
      set_volume env s chat v =
        (true,
          { s with active_calls := insertA (strOfChat chat) { ci with volume := some v } s.active_calls })) := by
  refine ⟨?_, ?_, ?_⟩
  · intro h; simp [set_volume, h]
  · intro hip
    cases hci : lookupA (strOfChat chat) s.active_calls with
    | none => simp [set_volume, hci]
    | some ci => simp [set_volume, hci, hip]
  · intro ci hci hip hpy hok; simp [set_volume, hci, hip, hpy, hok]

/-- C3 witness: no session registered for chat 1 on a fresh manager. -/
theorem c3_witness :
    lookupA (strOfChat (.intId 1)) stEmpty.active_calls = none ∧
    set_volume envA stEmpty (.intId 1) 50 = (false, stEmpty) :=
  ⟨by decide,
    (c3_set_volume_checks_only_registration envA stEmpty (.intId 1) 50).1 (by decide)⟩

/-- C8 counterexample: `resume_media` never checks for a prior pause or
for anything playing.  On the state right after a successful join —
nothing ever played, nothing paused — resume returns True (and marks the
session playing), contradicting "returns false". -/
theorem c8_counterexample :
    (lookupA "1" sJoined1.active_calls).map (fun ci => ci.playing) = some false ∧
    (lookupA "1" sJoined1.active_calls).map (fun ci => ci.file) = some none ∧
    (resume_media envA sJoined1 (.intId 1)).1 = true ∧
    (lookupA "1" (resume_media envA sJoined1 (.intId 1)).2.active_calls).map
      (fun ci => ci.playing) = some true := by
  refine ⟨by decide, by decide, by decide, by decide⟩

/-- C8 amended: `resume_media` never checks for a prior pause or for the
Paused state.  It returns false when no session is registered for the
chat, when the chat id is a string that is not a decimal numeral (the
eagerly evaluated `int(chat_id)` default raises), or when the transport
resume call raises; with a registered session addressed by an int or
numeric string it invokes the transport resume and, on success, marks the
session playing and returns true. -/
theorem c8_resume_checks_only_registration (env : Env) (s : ManagerState) (chat : ChatRef) :
    (lookupA (strOfChat chat) s.active_calls = none → resume_media env s chat = (false, s)) ∧
    (intParses chat = false → resume_media env s chat = (false, s)) ∧
    (∀ ci, lookupA (strOfChat chat) s.active_calls = some ci →
      intParses chat = true →
      ci.hasPytgcalls = true →
      env.resumeOk = true →
      resume_media env s chat =
        (true,
          { s with active_calls := insertA (strOfChat chat) { ci with playing := true } s.active_calls })) := by
  refine ⟨?_, ?_, ?_⟩
  · intro h; simp [resume_media, h]
  · intro hip
    cases hci : lookupA (strOfChat chat) s.active_calls with
    | none => simp [resume_media, hci]
    | some ci => simp [resume_media, hci, hip]
  · intro ci hci hip hpy hok; simp [resume_media, hci, hip, hpy, hok]

/-- C8 witness: resume with no session registered returns false. -/
theorem c8_witness :
    lookupA (strOfChat (.intId 4)) stEmpty.active_calls = none ∧
    resume_media envA stEmpty (.intId 4) = (false, stEmpty) :=
  ⟨by decide, (c8_resume_checks_only_registration envA stEmpty (.intId 4)).1 (by decide)⟩

/-- C4 counterexample: the converter fallback.  With a converter that
fails (non-zero exit, no output), playing "song.mp3" on the
freshly-joined session for chat 1 returns True and mutates the session:
`currentMediaPath` goes from none to "song.mp3" and the phase from
not-playing to playing, contradicting "previous currentMediaPath and
phase are unchanged".  (The broken output is indeed never streamed: the
stream path is the original input, not the temp output.) -/
theorem c4_counterexample :
    (lookupA "1" sJoined1.active_calls).map (fun ci => (ci.playing, ci.file)) =
      some (false, none) ∧
    (play_media envConvFail sJoined1 (.intId 1) "song.mp3" vsDefault false).1 = true ∧
    (lookupA "1" (play_media envConvFail sJoined1 (.intId 1) "song.mp3" vsDefault false).2.active_calls).map
      (fun ci => (ci.playing, ci.file, ci.current_stream.path)) =
      some (true, some "song.mp3", "song.mp3") ∧
    "song.mp3" ≠ envConvFail.tempDir ++ "/" ++ pathStem "song.mp3" ++ "_vcbot_36k64k.mp3" := by
  refine ⟨by decide, by decide, by decide, by decide⟩

/-- C4 amended: on a failed transform (non-zero converter exit, or missing
or under-1000-byte output) `play_media` falls back to streaming the
original input file — the broken transform output is never used as a
stream source — and, provided the chat id is an int or numeric string
(otherwise the eagerly evaluated `int(chat_id)` default makes play fail
before the converter even runs), proceeds rather than aborting: it
switches the transport to the original file, sets `currentMediaPath` to
the requested path and marks the session playing. -/
theorem c4_transform_failure_falls_back (env : Env) (s : ManagerState) (chat : ChatRef)
    (f : String) (vs : VoiceSettings) (ci : CallInfo)
    (hreg : lookupA (strOfChat chat) s.active_calls = some ci)
    (hip : intParses chat = true)
    (hpy : ci.hasPytgcalls = true)
    (hf : env.fileExists f = true)
    (hfail : convFailed env f = true)
    (hcs : env.changeStreamOk ci.entity_id f = true) :
    convert_audio_for_playback env f = f ∧
    play_media env s chat f vs false =
      (true,
        { s with active_calls := insertA (strOfChat chat) { ci with
            playing := true, file := some f, volume := some vs.volume,
            effects := some vs.effects, is_video := some false,
            started_at := some env.now,
            current_stream := { path := f, video := false }, stream_type := "audio",
            audio_quality := some vs.audio_quality,
            video_quality := some vs.video_quality } s.active_calls }) := by
  have hconv : convert_audio_for_playback env f = f := by
    simp only [convFailed, Bool.or_eq_true, bne_iff_ne, ne_eq, Bool.not_eq_true,
      decide_eq_true_eq] at hfail
    rcases hfail with (h | h) | h <;>
      simp [convert_audio_for_playback, h]
  refine ⟨hconv, ?_⟩
  simp [play_media, hreg, hip, hpy, hf, hconv, hcs]

/-- C4 witness: the failing-converter scenario on the joined chat 1. -/
theorem c4_witness :
    convFailed envConvFail "song.mp3" = true ∧
    convert_audio_for_playback envConvFail "song.mp3" = "song.mp3" :=
  ⟨by decide,
    (c4_transform_failure_falls_back envConvFail sJoined1 (.intId 1) "song.mp3" vsDefault
      (mkCallInfo envA { id := 1, broadcast := false, title := some "Chat" } "+100001")
      (by decide) rfl rfl rfl (by decide) rfl).1⟩

/-- Every run of the join-attempt loop either fails leaving the state
untouched or succeeds having registered the call under its key. -/
theorem joinLoop_cases (env : Env) (s : ManagerState) (key : String) (e : Entity)
    (ph : String) :
    ∀ r, joinLoop env s key e ph r = (false, s) ∨
      joinLoop env s key e ph r = (true, registerCall env s key e ph) := by
  intro r
  induction r with
  | zero => exact Or.inl rfl
  | succ n ih =>
    cases h : env.attemptOutcome (3 - (n + 1)) <;>
      simp only [joinLoop, h]
    case success => simp
    case alreadyJoined => simp
    case noActiveGroupCall =>
      by_cases hn : n > 0
      · simpa [hn] using ih
      · by_cases hcc : (env.canCreate && env.createJoinOk) = true
        · simp [hn, hcc]
        · simp [hn, hcc]
    case groupCallNotFound =>
      by_cases hn : n > 0
      · simpa [hn] using ih
      · simp [hn]
    case timeoutErr =>
      by_cases hn : n > 0
      · simpa [hn] using ih
      · simp [hn]
    case otherError =>
      by_cases hn : n > 0
      · simpa [hn] using ih
      · simp [hn]

/-- C5: whenever `join_voice_chat` reports failure, the registry is
exactly as before — in particular no partial session entry and no queue
exist for the chat if none existed before the call. -/
theorem c5_join_failure_leaves_no_session (env : Env) (s : ManagerState) (chat : ChatRef)
    (phone : String) (h : (join_voice_chat env s chat phone).1 = false) :
    (join_voice_chat env s chat phone).2 = s ∧
    (lookupA (joinKey chat) s.active_calls = none →
      lookupA (joinKey chat) (join_voice_chat env s chat phone).2.active_calls = none) := by
  have hstate : (join_voice_chat env s chat phone).2 = s := by
    unfold join_voice_chat at h ⊢
    by_cases h1 : (lookupA (strOfChat (normalizeJoin chat)) s.active_calls).isSome = true
    · simp [h1] at h
    · simp only [h1, if_false] at h ⊢
      by_cases h2 : env.initOk = true
      · simp only [h2, Bool.not_true, if_false, if_true] at h ⊢
        cases hr : env.resolve (normalizeJoin chat) with
        | none => simp [hr]
        | some e =>
          simp only [hr] at h ⊢
          by_cases h3 : e.broadcast = true
          · simp [h3]
          · simp only [h3, if_false] at h ⊢
            by_cases h4 : env.silenceOk = true
            · simp only [h4, Bool.not_true, if_false] at h ⊢
              rcases joinLoop_cases env s (strOfChat (normalizeJoin chat)) e phone 3 with
                hl | hl
              · rw [hl]; simp
              · rw [hl] at h; simp at h
            · simp [h4]
      · simp [h2]
  exact ⟨hstate, fun hnone => by rw [hstate]; exact hnone⟩

/-- C5 witness: a join whose PyTgCalls initialization fails on a fresh
manager reports failure and leaves the registry empty. -/
theorem c5_witness :
    (join_voice_chat envInitFail stEmpty (.intId 9) "+1009").1 = false ∧
    (join_voice_chat envInitFail stEmpty (.intId 9) "+1009").2 = stEmpty :=
  ⟨by decide,
    (c5_join_failure_leaves_no_session envInitFail stEmpty (.intId 9) "+1009" (by decide)).1⟩

/-- Successful `play_media`: with the file present, the session registered
with a live pytgcalls reference, an int-parsable chat id, and the stream
switch accepted, the call returns True and rewrites only the session's
call-info entry, which ends up playing the requested file. -/
theorem play_media_success (env : Env) (s : ManagerState) (chat : ChatRef) (f : String)
    (vs : VoiceSettings) (b : Bool) (ci : CallInfo)
    (hreg : lookupA (strOfChat chat) s.active_calls = some ci)
    (hip : intParses chat = true)
    (hpy : ci.hasPytgcalls = true)
    (hf : env.fileExists f = true)
    (hcs : ∀ p, env.changeStreamOk ci.entity_id p = true) :
    ∃ ci',
      play_media env s chat f vs b =
        (true, { s with active_calls := insertA (strOfChat chat) ci' s.active_calls }) ∧
      ci'.playing = true ∧ ci'.hasPytgcalls = ci.hasPytgcalls ∧ ci'.file = some f := by
  refine ⟨{ ci with
      playing := true, file := some f, volume := some vs.volume,
      effects := some vs.effects, is_video := some b, started_at := some env.now,
      current_stream :=
        { path := if b then f else convert_audio_for_playback env f, video := b },
      stream_type := if b then "video_with_audio" else "audio",
      audio_quality := some vs.audio_quality,
      video_quality := some vs.video_quality }, ?_, rfl, rfl, rfl⟩
  simp [play_media, hreg, hip, hpy, hf, hcs]

/-- One unfolding step of `streamEndTrace`. -/
theorem streamEndTrace_succ (env : Env) (s : ManagerState) (chatId : Int) (k : Nat) :
    streamEndTrace env s chatId (k + 1) =
      ((streamEndTrace env (handle_stream_end env s chatId) chatId k).1,
        (streamEndPlayed s chatId).toList ++
          (streamEndTrace env (handle_stream_end env s chatId) chatId k).2) := rfl

/-- C7: for a registered session with a queue of N items, N+1 stream-end
events (one after each successful play) dequeue and play exactly the N
items, in FIFO order, each with the settings object rebuilt from its
stored dict; afterwards the queue is empty and the session remains
registered but is marked not playing (idle). -/
theorem c7_stream_end_drains_queue (env : Env) (chatId : Int)
    (hf : ∀ p, env.fileExists p = true)
    (hc : ∀ i p, env.changeStreamOk i p = true) :
    ∀ (items : List QueueItem) (s : ManagerState) (ci : CallInfo),
      lookupA (toString chatId) s.active_calls = some ci →
      ci.hasPytgcalls = true →
      lookupA (toString chatId) s.playlist_queues = some items →
      (streamEndTrace env s chatId (items.length + 1)).2 =
        items.map (fun it => (it.file, it.settings.postInit)) ∧
      lookupA (toString chatId)
        (streamEndTrace env s chatId (items.length + 1)).1.playlist_queues = some [] ∧
      ∃ ci', lookupA (toString chatId)
          (streamEndTrace env s chatId (items.length + 1)).1.active_calls = some ci' ∧
        ci'.playing = false := by
  intro items
  induction items with
  | nil =>
    intro s ci hreg hpy hq
    have hpl : streamEndPlayed s chatId = none := by
      simp [streamEndPlayed, hq]
    have hstep : handle_stream_end env s chatId =
        { s with active_calls :=
            insertA (toString chatId) { ci with playing := false } s.active_calls } := by
      simp [handle_stream_end, hq, hreg]
    refine ⟨?_, ?_, ?_⟩
    · simp [streamEndTrace, hpl]
    · simp [streamEndTrace, hstep, hq]
    · refine ⟨{ ci with playing := false }, ?_, rfl⟩
      simp [streamEndTrace, hstep, lookupA_insertA_self]
  | cons it rest ih =>
    intro s ci hreg hpy hq
    have hpl : streamEndPlayed s chatId = some (it.file, it.settings.postInit) := by
      simp [streamEndPlayed, hq]
    obtain ⟨ci', hpm, hplay, hpygood, hfile⟩ :=
      play_media_success env
        { s with playlist_queues := insertA (toString chatId) rest s.playlist_queues }
        (.intId chatId) it.file it.settings.postInit it.is_video ci hreg rfl hpy (hf _)
        (fun p => hc _ p)
    have hstep : handle_stream_end env s chatId =
        { active_calls := insertA (toString chatId) ci' s.active_calls,
          playlist_queues := insertA (toString chatId) rest s.playlist_queues } := by
      rw [handle_stream_end]
      simp only [hq]
      rw [hpm]
      rfl
    have hih := ih
      { active_calls := insertA (toString chatId) ci' s.active_calls,
        playlist_queues := insertA (toString chatId) rest s.playlist_queues }
      ci' (lookupA_insertA_self _ _ _) (by rw [hpygood]; exact hpy)
      (lookupA_insertA_self _ _ _)
    have hlen : (it :: rest).length = rest.length + 1 := rfl
    refine ⟨?_, ?_, ?_⟩
    · rw [hlen, streamEndTrace_succ, hstep, hpl]
      dsimp only
      rw [hih.1]
      simp
    · rw [hlen, streamEndTrace_succ, hstep]
      dsimp only
      exact hih.2.1
    · rw [hlen, streamEndTrace_succ, hstep]
      dsimp only
      exact hih.2.2

/-- Fixture for the drain scenario: joined chat 3, two queued tracks. -/
def sDrain : ManagerState :=
  (add_to_queue envA
    (add_to_queue envA (join_voice_chat envA stEmpty (.intId 3) "+1003").2
      (.intId 3) "a.mp3" vsDefault false).2
    (.intId 3) "b.mp3" vsDefault false).2

/-- C7 witness: chat 3 with queue [a.mp3, b.mp3]; three stream-end events
play both in order, leave the queue empty and the session idle. -/
theorem c7_witness :
    (streamEndTrace envA sDrain 3 3).2 =
      [("a.mp3", vsDefault.postInit), ("b.mp3", vsDefault.postInit)] ∧
    lookupA "3" (streamEndTrace envA sDrain 3 3).1.playlist_queues = some [] ∧
    ∃ ci', lookupA "3" (streamEndTrace envA sDrain 3 3).1.active_calls = some ci' ∧
      ci'.playing = false :=
  c7_stream_end_drains_queue envA 3 (fun _ => rfl) (fun _ _ => rfl)
    [{ file := "a.mp3", settings := vsDefault, is_video := false, added_at := 1000 },
     { file := "b.mp3", settings := vsDefault, is_video := false, added_at := 1000 }]
    sDrain (mkCallInfo envA { id := 3, broadcast := false, title := some "Chat" } "+1003")
    (by decide) rfl (by decide)

/-- The function `Nat.digitChar` never yields a plus sign. -/
theorem digitChar_ne_plus (n : Nat) : Nat.digitChar n ≠ '+' := by
  rcases Nat.lt_or_ge n 16 with h | h
  · interval_cases n <;> decide
  · obtain ⟨m, rfl⟩ : ∃ m, n = m + 16 := ⟨n - 16, by omega⟩
    have hm : Nat.digitChar (m + 16) = '*' := rfl
    rw [hm]; decide

/-- No character of `Nat.toDigitsCore` output is a plus sign, provided
none of the accumulator's characters is one. -/
theorem toDigitsCore_ne_plus (b : Nat) :
    ∀ (fuel n : Nat) (ds : List Char), (∀ c ∈ ds, c ≠ '+') →
      ∀ c ∈ Nat.toDigitsCore b fuel n ds, c ≠ '+' := by
  intro fuel
  induction fuel with
  | zero =>
    intro n ds hds
    simpa [Nat.toDigitsCore] using hds
  | succ f ih =>
    intro n ds hds c hc
    simp only [Nat.toDigitsCore] at hc
    split at hc
    · rcases List.mem_cons.mp hc with h | h
      · subst h; exact digitChar_ne_plus _
      · exact hds c h
    · refine ih _ _ ?_ c hc
      intro x hx
      rcases List.mem_cons.mp hx with h | h
      · subst h; exact digitChar_ne_plus _
      · exact hds x h

/-- No character of `Nat.repr` is a plus sign. -/
theorem natRepr_ne_plus (m : Nat) : ∀ c ∈ (Nat.repr m).data, c ≠ '+' := by
  intro c hc
  exact toDigitsCore_ne_plus 10 (m + 1) m [] (by intro x hx; cases hx) c hc

/-- The decimal form of an integer never starts with a plus sign. -/
theorem toString_int_head_ne_plus (n : Int) :
    ∀ c, (toString n).data.head? = some c → c ≠ '+' := by
  cases n with
  | ofNat m =>
    intro c hc
    have hdata : (toString (Int.ofNat m)).data = (Nat.repr m).data := rfl
    rw [hdata] at hc
    cases hl : (Nat.repr m).data with
    | nil => rw [hl] at hc; cases hc
    | cons a l =>
      rw [hl] at hc
      have hca : a = c := by simpa using hc
      rw [← hca]
      exact natRepr_ne_plus m a (by rw [hl]; exact List.mem_cons_self a l)
  | negSucc m =>
    intro c hc
    have hdata : (toString (Int.negSucc m)).data = '-' :: (Nat.repr (m + 1)).data := rfl
    rw [hdata] at hc
    have hcm : '-' = c := by simpa using hc
    rw [← hcm]; decide

/-- Python `lstrip` of plus signs is the identity on strings that do not start with '+'. -/
theorem lstripPlus_eq_self (s : String) (h : ∀ c, s.data.head? = some c → c ≠ '+') :
    lstripPlus s = s := by
  cases s with
  | mk data =>
    cases data with
    | nil => rfl
    | cons a l =>
      have ha : (a == '+') = false := by
        have := h a rfl
        simpa using this
      show String.mk (List.dropWhile (fun c => c == '+') (a :: l)) = String.mk (a :: l)
      rw [List.dropWhile_cons, ha]
      simp

/-- Python `str(chat_id).lstrip('+')` on the decimal form of an integer is
the decimal form itself. -/
theorem lstripPlus_toString_int (n : Int) : lstripPlus (toString n) = toString n :=
  lstripPlus_eq_self _ (toString_int_head_ne_plus n)

/-- The function `Nat.digitChar` yields a decimal digit below 10. -/
theorem digitChar_isDigit (k : Nat) (h : k < 10) : (Nat.digitChar k).isDigit = true := by
  interval_cases k <;> decide

/-- Every character of base-10 `Nat.toDigitsCore` output is a decimal
digit, provided every accumulator character is one. -/
theorem toDigitsCore_all_digits :
    ∀ (fuel n : Nat) (ds : List Char), (∀ c ∈ ds, c.isDigit = true) →
      ∀ c ∈ Nat.toDigitsCore 10 fuel n ds, c.isDigit = true := by
  intro fuel
  induction fuel with
  | zero =>
    intro n ds hds
    simpa [Nat.toDigitsCore] using hds
  | succ f ih =>
    intro n ds hds c hc
    simp only [Nat.toDigitsCore] at hc
    split at hc
    · rcases List.mem_cons.mp hc with h | h
      · subst h; exact digitChar_isDigit _ (Nat.mod_lt _ (by norm_num))
      · exact hds c h
    · refine ih _ _ ?_ c hc
      intro x hx
      rcases List.mem_cons.mp hx with h | h
      · subst h; exact digitChar_isDigit _ (Nat.mod_lt _ (by norm_num))
      · exact hds x h

/-- Every character of `Nat.repr` is a decimal digit. -/
theorem natRepr_all_digits (m : Nat) : ∀ c ∈ (Nat.repr m).data, c.isDigit = true := by
  intro c hc
  exact toDigitsCore_all_digits (m + 1) m [] (by intro x hx; cases hx) c hc

/-- Base-10 `Nat.toDigitsCore` output is non-empty when the accumulator
is. -/
theorem toDigitsCore_ne_nil_of_acc :
    ∀ (fuel n : Nat) (ds : List Char), ds ≠ [] → Nat.toDigitsCore 10 fuel n ds ≠ [] := by
  intro fuel
  induction fuel with
  | zero =>
    intro n ds h
    simpa [Nat.toDigitsCore] using h
  | succ f ih =>
    intro n ds h
    simp only [Nat.toDigitsCore]
    split
    · simp
    · exact ih _ _ (by simp)

/-- The decimal form of a natural number is never empty. -/
theorem natRepr_ne_nil (m : Nat) : (Nat.repr m).data ≠ [] := by
  show Nat.toDigitsCore 10 (m + 1) m [] ≠ []
  simp only [Nat.toDigitsCore]
  split
  · simp
  · exact toDigitsCore_ne_nil_of_acc _ _ _ (by simp)

/-- A decimal digit is neither a minus nor a plus sign. -/
theorem isDigit_not_sign (c : Char) (h : c.isDigit = true) : (c == '-' || c == '+') = false := by
  by_cases h1 : c = '-'
  · rw [h1] at h; exact absurd h (by decide)
  · by_cases h2 : c = '+'
    · rw [h2] at h; exact absurd h (by decide)
    · simp [h1, h2]

/-- Python `int(str(n))` parses: the decimal form of an integer is an
optionally signed digit run, so the eager `int(chat_id)` default never
raises for an id that is an int's decimal string form. -/
theorem strIsInt_toString_int (n : Int) : strIsInt (toString n) = true := by
  cases n with
  | ofNat m =>
    have hdata : (toString (Int.ofNat m)).data = (Nat.repr m).data := rfl
    unfold strIsInt
    rw [hdata]
    cases hl : (Nat.repr m).data with
    | nil => exact absurd hl (natRepr_ne_nil m)
    | cons a l =>
      have ha : a.isDigit = true :=
        natRepr_all_digits m a (by rw [hl]; exact List.mem_cons_self a l)
      have hall : ∀ c ∈ a :: l, c.isDigit = true := by
        rw [← hl]; exact natRepr_all_digits m
      simp only [isDigit_not_sign a ha, Bool.false_eq_true, if_false]
      simpa [List.all_eq_true] using hall
  | negSucc m =>
    have hdata : (toString (Int.negSucc m)).data = '-' :: (Nat.repr (m + 1)).data := rfl
    unfold strIsInt
    rw [hdata]
    have h1 : (Nat.repr (m + 1)).data.isEmpty = false := by
      cases hl : (Nat.repr (m + 1)).data with
      | nil => exact absurd hl (natRepr_ne_nil _)
      | cons a l => rfl
    have h2 : (Nat.repr (m + 1)).data.all (fun d => d.isDigit) = true := by
      simpa [List.all_eq_true] using natRepr_all_digits (m + 1)
    simp [h1, h2]

/-- The eager `int(chat_id)` check passes on an integer id and on its
decimal string form. -/
theorem intParses_decimal (n : Int) :
    intParses (.intId n) = true ∧ intParses (.strId (toString n)) = true :=
  ⟨rfl, strIsInt_toString_int n⟩

/-- Joining reads and writes the registry only at its own
normalized key: every other key's entry in both maps is untouched. -/
theorem join_touches_only_key (env : Env) (s : ManagerState) (chat : ChatRef) (ph : String)
    (k : String) (hk : k ≠ joinKey chat) :
    lookupA k (join_voice_chat env s chat ph).2.active_calls = lookupA k s.active_calls ∧
    lookupA k (join_voice_chat env s chat ph).2.playlist_queues =
      lookupA k s.playlist_queues := by
  have hk' : strOfChat (normalizeJoin chat) ≠ k := Ne.symm hk
  unfold join_voice_chat
  by_cases h1 : (lookupA (strOfChat (normalizeJoin chat)) s.active_calls).isSome = true
  · simp [h1]
  · simp only [h1, if_false]
    by_cases h2 : env.initOk = true
    · simp only [h2, Bool.not_true, if_false]
      cases hr : env.resolve (normalizeJoin chat) with
      | none => simp
      | some e =>
        by_cases h3 : e.broadcast = true
        · simp [h3]
        · by_cases h4 : env.silenceOk = true
          · rcases joinLoop_cases env s (strOfChat (normalizeJoin chat)) e ph 3 with hl | hl <;>
              simp [h3, h4, hl, registerCall, lookupA_insertA_ne _ _ _ _ hk']
          · simp [h3, h4]
    · simp [h2]

/-- C10: every public operation keys both maps by `str(chat_id)`, so an
integer chat id and its decimal string form are interchangeable: the seven
non-join operations are extensionally equal on the two forms, join's
normalized key strips leading plus signs from strings and agrees on the
two forms (a decimal form has none to strip), and join never touches any
registry key other than its own normalized key. -/
theorem c10_str_keying (env : Env) (s : ManagerState) (n : Int) (phone f : String)
    (vs : VoiceSettings) (b : Bool) (v : Int) :
    play_media env s (.intId n) f vs b = play_media env s (.strId (toString n)) f vs b ∧
    leave_voice_chat env s (.intId n) = leave_voice_chat env s (.strId (toString n)) ∧
    stop_media env s (.intId n) = stop_media env s (.strId (toString n)) ∧
    pause_media env s (.intId n) = pause_media env s (.strId (toString n)) ∧
    resume_media env s (.intId n) = resume_media env s (.strId (toString n)) ∧
    set_volume env s (.intId n) v = set_volume env s (.strId (toString n)) v ∧
    add_to_queue env s (.intId n) f vs b = add_to_queue env s (.strId (toString n)) f vs b ∧
    (∀ t : String, joinKey (.strId t) = lstripPlus t) ∧
    joinKey (.intId n) = joinKey (.strId (toString n)) ∧
    (∀ k, k ≠ joinKey (.intId n) →
      lookupA k (join_voice_chat env s (.intId n) phone).2.active_calls =
        lookupA k s.active_calls ∧
      lookupA k (join_voice_chat env s (.strId (toString n)) phone).2.active_calls =
        lookupA k s.active_calls) := by
  have hkeys : joinKey (.intId n) = joinKey (.strId (toString n)) :=
    (lstripPlus_toString_int n).symm
  have hsi : strIsInt (toString n) = true := strIsInt_toString_int n
  refine ⟨?_, ?_, ?_, ?_, ?_, ?_, rfl, fun t => rfl, hkeys, ?_⟩
  · simp only [play_media, strOfChat, intParses, hsi]
  · simp only [leave_voice_chat, strOfChat, intParses, hsi]
  · simp only [stop_media, strOfChat, intParses, hsi]
  · simp only [pause_media, strOfChat, intParses, hsi]
  · simp only [resume_media, strOfChat, intParses, hsi]
  · simp only [set_volume, strOfChat, intParses, hsi]
  · intro k hk
    exact ⟨(join_touches_only_key env s (.intId n) phone k hk).1,
      (join_touches_only_key env s (.strId (toString n)) phone k (hkeys ▸ hk)).1⟩

/-- C10 witness: chat 1's integer and decimal-string forms act identically
on the joined state, and joining chat 1 does not touch key "zz". -/
theorem c10_witness :
    pause_media envA sJoined1 (.intId 1) =
      pause_media envA sJoined1 (.strId (toString (1 : Int))) ∧
    lookupA "zz" (join_voice_chat envA stEmpty (.intId 1) "p").2.active_calls =
      lookupA "zz" stEmpty.active_calls :=
  ⟨(c10_str_keying envA sJoined1 1 "p" "f" vsDefault false 0).2.2.2.1,
    ((c10_str_keying envA stEmpty 1 "p" "f" vsDefault false 0).2.2.2.2.2.2.2.2.2 "zz"
      (by decide)).1⟩

end VC
